import Mathlib

/-!
Shallow embedding of `packages/eslint-plugin-template/src/rules/i18n.ts`:
the i18n lint rule for Angular templates.  Pure functions of the rule are
translated directly; the two pieces of JavaScript runtime state that the rule
touches (the module-level `DEFAULT_IGNORE_ATTRIBUTES` array, which `create`
aliases and mutates via `push`, and the `console.log` debug write for nodes
without a name) are made explicit: the ignore-list resolver threads the
array's contents as explicit state, and `checkNode` returns a Boolean flag
recording whether the node was written to the console.

The ECMAScript primitive `String(Number(s)) === s` used by `isSizeOrNumber`
is a JavaScript builtin, external to the repository; it is kept as an
explicit parameter `numRT : String → Bool` of every function that consumes
it, so theorems quantify over it (adding as hypotheses only the particular
ECMAScript facts a claim needs).

Source spans, line/column locations and offsets are converted by external
parser services (`convertNodeSourceSpanToLoc`, `getIndexFromLoc`).  The
embedding abstracts the composite of the two converters into a single
character offset `startIndex` carried on the node, and diagnostics record
that offset as their location.
-/

namespace I18nRule

/-- Child-node type names that count as translatable content
(`TEXT_TYPE_NAMES` in the source). -/
def TEXT_TYPE_NAMES : List String := ["Text", "BoundText", "Icu"]

/-- The literal attribute text inserted by autofixes (`ATTRIB_I18N`). -/
def ATTRIB_I18N : String := "i18n"

/-- Initial contents of the module-level `DEFAULT_IGNORE_ATTRIBUTES` array. -/
def DEFAULT_IGNORE_ATTRIBUTES : List String :=
  ["class", "style", "color", "svgIcon", "href", "src", "id", "lang",
   "charset", "height", "width", "target", "type", "colspan", "uiSref",
   "uiSrefActive", "ui-view", "xmlns", "stroke-width", "stroke", "fill",
   "viewBox", "tabindex", "formControlName"]

/-- An i18n metadata record attached by the Angular parser to a node or an
attribute.  Its `customId` field is a string, empty when the author wrote no
`@@id`; the source tests it for JavaScript truthiness (`!attrib.i18n.customId`),
which for a string means non-emptiness. -/
structure I18nMarker where
  customId : String
deriving DecidableEq

/-- A JavaScript attribute value as the rule observes it: a string, an
absent (undefined or null, hence falsy) value, or a value of some other
runtime type, of which the rule can only observe truthiness. -/
inductive AttrValue where
  | str (s : String)
  | absent
  | nonString (truthy : Bool)
deriving DecidableEq

/-- JavaScript truthiness of an attribute value (`attrib.value &&` in the
source): a string is truthy iff non-empty, undefined and null are falsy. -/
def jsTruthy : AttrValue → Bool
  | AttrValue.str s => !(s == "")
  | AttrValue.absent => false
  | AttrValue.nonString t => t

/-- A template attribute as the rule observes it: `attrib.name`,
`attrib.value`, and the optional i18n marker `attrib.i18n` (an object is
truthy, so `Option` models presence). -/
structure Attribute where
  name : String
  value : AttrValue
  i18n : Option I18nMarker
deriving DecidableEq

/-- A direct child of a template node; the rule only reads `child.type`. -/
structure ChildNode where
  type : String
deriving DecidableEq

/-- A parsed template node (Element or Template).  `name` is `node.name`
for an Element, `node.tagName` for a Template (possibly empty).
`startIndex` abstracts `sourceCode.getIndexFromLoc(loc.start)` where
`loc = parserServices.convertNodeSourceSpanToLoc(node.sourceSpan)`. -/
structure TemplateNode where
  name : String
  i18n : Option I18nMarker
  attributes : List Attribute
  children : List ChildNode
  startIndex : Nat
deriving DecidableEq

/-- Diagnostic kinds of the rule's message catalog. -/
inductive MessageId where
  | i18nId
  | i18nText
  | i18nAttrib
  | i18nIdOnAttrib
  | i18nSuggestIgnore
deriving DecidableEq

/-- A text edit produced by a fixer: `fixer.replaceTextRange([a, b], text)`. -/
structure Fix where
  rangeStart : Nat
  rangeEnd : Nat
  text : String
deriving DecidableEq

/-- A suggestion attached to a diagnostic; its `fix` is `none` when the
suggestion's fixer returns `null` (performs no edit). -/
structure Suggestion where
  messageId : MessageId
  attribName : String
  fix : Option Fix
deriving DecidableEq

/-- A reported diagnostic: message kind, location (the node's start offset),
optional interpolation data (`attribName`), optional autofix, suggestions. -/
structure Diagnostic where
  messageId : MessageId
  loc : Nat
  attribName : Option String
  fix : Option Fix
  suggest : List Suggestion
deriving DecidableEq

/-- Rule options as `create` receives them after schema validation;
`ignoreAttributes` is `none` when the key is absent (the `if
(ignoreAttributes)` guard in the source). -/
structure RuleOptions where
  checkId : Bool
  checkText : Bool
  checkAttributes : Bool
  ignoreAttributes : Option (List String)
deriving DecidableEq

/-- The `defaultOptions` object of the source, verbatim: note that its
`ignoreAttributes` is the one-element array `['']`. -/
def defaultOptions : RuleOptions :=
  { checkId := true
    checkText := true
    checkAttributes := true
    ignoreAttributes := some [""] }

/-- The ignore-list construction at the top of `create`:
`const allIgnoredAttribs = DEFAULT_IGNORE_ATTRIBUTES;
 if (ignoreAttributes) allIgnoredAttribs.push(...ignoreAttributes);`.
`allIgnoredAttribs` aliases the module-level array, and `push` mutates it in
place, so the array's contents are threaded as explicit state: `state` is the
contents of `DEFAULT_IGNORE_ATTRIBUTES` when `create` runs, and the result is
the pair (contents after `create` ran, lookup list used by this instance);
aliasing makes the two components equal. -/
def resolveIgnoreSet (state : List String) (ignoreAttributes : Option (List String)) :
    List String × List String :=
  match ignoreAttributes with
  | none => (state, state)
  | some supplied => (state ++ supplied, state ++ supplied)

/-- JavaScript `s.startsWith(pre)`, spelled out on the character sequence
(Lean's `String.startsWith` is not kernel-reducible). -/
def jsStartsWith (s pre : String) : Bool :=
  pre.data.isPrefixOf s.data

/-- Strips a trailing `px`: the first half of `isSizeOrNumber`
(`temp.substr(0, temp.length - 2)` when `temp.endsWith('px')`), with the
JavaScript `endsWith` and `substr` spelled out on the character sequence:
`temp.endsWith('px')` holds iff the last two characters are `p`, `x`, and
`substr(0, length - 2)` keeps all but the last two characters. -/
def stripPx (value : String) : String :=
  if value.data.reverse.take 2 == ['x', 'p'] then
    String.mk (value.data.take (value.data.length - 2))
  else value

/-- The `isSizeOrNumber` helper of the source.  `numRT` is the oracle for
the ECMAScript test `String(Number(temp)) === String(temp)` (for a string
`temp`, `String(temp)` is `temp` itself). -/
def isSizeOrNumber (numRT : String → Bool) (value : String) : Bool :=
  numRT (stripPx value)

/-- The attribute inspector: the body of the `node.attributes.forEach`
callback in `checkNode`, for a single attribute.  Returns the diagnostics
reported for that attribute (the source reports them via `context.report`). -/
def checkAttribute (checkId checkAttributes : Bool) (numRT : String → Bool)
    (allIgnoredAttribs : List String) (loc insertIndex : Nat)
    (attrib : Attribute) : List Diagnostic :=
  match attrib.i18n with
  | some marker =>
    if checkId && (marker.customId == "") then
      [{ messageId := MessageId.i18nIdOnAttrib
         loc := loc
         attribName := some attrib.name
         fix := none
         suggest := [] }]
    else []
  | none =>
    match attrib.value with
    | AttrValue.str s =>
      if checkAttributes && !(s == "") && decide (0 < s.length)
          && !(s == "true") && !(s == "false")
          && !(isSizeOrNumber numRT s)
          && !(jsStartsWith attrib.name ":xml")
          && !(allIgnoredAttribs.contains attrib.name) then
        [{ messageId := MessageId.i18nAttrib
           loc := loc
           attribName := some attrib.name
           fix := some { rangeStart := insertIndex
                         rangeEnd := insertIndex
                         text := " " ++ ATTRIB_I18N ++ "-" ++ attrib.name }
           suggest := [{ messageId := MessageId.i18nSuggestIgnore
                         attribName := attrib.name
                         fix := none }] }]
      else []
    | _ => []

/-- The element inspector: the `if (node.i18n) ... else ...` tail of
`checkNode`. -/
def checkElement (checkId checkText : Bool) (loc insertIndex : Nat)
    (node : TemplateNode) : List Diagnostic :=
  match node.i18n with
  | some marker =>
    if checkId then
      if marker.customId == "" then
        [{ messageId := MessageId.i18nId
           loc := loc
           attribName := none
           fix := none
           suggest := [] }]
      else []
    else []
  | none =>
    if checkText && node.children.any (fun child => TEXT_TYPE_NAMES.contains child.type) then
      [{ messageId := MessageId.i18nText
         loc := loc
         attribName := none
         fix := some { rangeStart := insertIndex
                       rangeEnd := insertIndex
                       text := " " ++ ATTRIB_I18N }
         suggest := [] }]
    else []

/-- Insertion offset as `checkNode` computes it: `insertIndex` starts at
`startIndex + 1` and, when the name is truthy (non-empty), `name.length` is
added; when the name is falsy nothing is added (the source instead writes
the node to `console.log`). -/
def insertIndexFor (startIndex : Nat) (name : String) : Nat :=
  if name == "" then startIndex + 1 else startIndex + 1 + name.length

/-- The `checkNode` function of the source for one node.  Returns the
diagnostics in report order (attribute inspection in attribute order, then
the element inspection) together with a flag recording whether the node was
written to the console (`console.log(node)` in the `if (!name)` branch). -/
def checkNode (checkId checkText checkAttributes : Bool) (numRT : String → Bool)
    (allIgnoredAttribs : List String) (node : TemplateNode) (name : String) :
    List Diagnostic × Bool :=
  let loc := node.startIndex
  let insertIndex := insertIndexFor node.startIndex name
  ((node.attributes.map
      (checkAttribute checkId checkAttributes numRT allIgnoredAttribs loc insertIndex)).flatten
    ++ checkElement checkId checkText loc insertIndex node,
   name == "")

/-- Modelled from the spec: sections 4.3 and 7 require a node with no
discoverable tag name to be handled by treating the name as the empty string
and running the ordinary pipeline, with no debug channel.  This definition
is that specified pipeline, to be compared with `checkNode` above. -/
def checkNodeSpec (checkId checkText checkAttributes : Bool) (numRT : String → Bool)
    (allIgnoredAttribs : List String) (node : TemplateNode) (name : String) :
    List Diagnostic :=
  let loc := node.startIndex
  let insertIndex :=
    if name = "" then node.startIndex + 1 else node.startIndex + 1 + name.length
  (node.attributes.map
      (checkAttribute checkId checkAttributes numRT allIgnoredAttribs loc insertIndex)).flatten
    ++ checkElement checkId checkText loc insertIndex node

/-- Modelled from the spec: applying the `i18n-missing-text` autofix inserts
`" i18n"` immediately after the tag name, and re-parsing (the Angular
template parser is external to this repository) attaches to the element an
i18n marker with no custom identifier; attributes, children and position are
unchanged. -/
def applyI18nTextFix (node : TemplateNode) : TemplateNode :=
  { node with i18n := some { customId := "" } }


/-- Every diagnostic produced by the attribute inspector is either
`i18nIdOnAttrib` or `i18nAttrib`. -/
theorem checkAttribute_messageId_cases (checkId checkAttributes : Bool)
    (numRT : String → Bool) (allIgnoredAttribs : List String)
    (loc insertIndex : Nat) (attrib : Attribute) :
    ∀ d ∈ checkAttribute checkId checkAttributes numRT allIgnoredAttribs loc insertIndex attrib,
      d.messageId = MessageId.i18nIdOnAttrib ∨ d.messageId = MessageId.i18nAttrib := by
  intro d hd
  unfold checkAttribute at hd
  split at hd
  · split at hd
    · simp only [List.mem_singleton] at hd
      subst hd
      exact Or.inl rfl
    · simp at hd
  · split at hd
    · split at hd
      · simp only [List.mem_singleton] at hd
        subst hd
        exact Or.inr rfl
      · simp at hd
    · simp at hd

/-- C1: for every attribute on an inspected node, if the attribute's name is
in the built-in ignore list, or its value is absent, empty, exactly `true` or
`false`, or a string accepted by the number round-trip test after optionally
stripping a trailing `px` suffix, then the `i18nAttrib` diagnostic is never
reported for that attribute, for every setting of the options and every
resolved ignore list extending the built-in one. -/
theorem c1_exempt_attribute_never_reported
    (checkId checkAttributes : Bool) (numRT : String → Bool)
    (allIgnoredAttribs : List String)
    (hbuiltin : ∀ a, a ∈ DEFAULT_IGNORE_ATTRIBUTES → a ∈ allIgnoredAttribs)
    (loc insertIndex : Nat) (attrib : Attribute)
    (hexempt : attrib.name ∈ DEFAULT_IGNORE_ATTRIBUTES
      ∨ attrib.value = AttrValue.absent
      ∨ attrib.value = AttrValue.str ""
      ∨ attrib.value = AttrValue.str "true"
      ∨ attrib.value = AttrValue.str "false"
      ∨ ∃ s, attrib.value = AttrValue.str s ∧ numRT (stripPx s) = true) :
    ∀ d ∈ checkAttribute checkId checkAttributes numRT allIgnoredAttribs loc insertIndex attrib,
      d.messageId ≠ MessageId.i18nAttrib := by
  intro d hd
  obtain ⟨nm, v, mk⟩ := attrib
  cases mk with
  | some marker =>
    simp only [checkAttribute] at hd
    split at hd
    · simp only [List.mem_singleton] at hd
      subst hd
      simp
    · simp at hd
  | none =>
    cases v with
    | absent => simp [checkAttribute] at hd
    | nonString t => simp [checkAttribute] at hd
    | str s =>
      rcases hexempt with hmem | hv | hv | hv | hv | ⟨s2, hv, hrt⟩
      · have hc : nm ∈ allIgnoredAttribs := hbuiltin nm hmem
        simp [checkAttribute, hc] at hd
      · cases hv
      · injection hv with hs
        subst hs
        simp [checkAttribute] at hd
      · injection hv with hs
        subst hs
        simp [checkAttribute] at hd
      · injection hv with hs
        subst hs
        simp [checkAttribute] at hd
      · injection hv with hs
        subst hs
        simp [checkAttribute, isSizeOrNumber, hrt] at hd

/-- C1 witness: the built-in-ignored attribute name `class` with a plainly
translatable value is never reported. -/
theorem c1_witness :
    "class" ∈ DEFAULT_IGNORE_ATTRIBUTES
    ∧ ∀ d ∈ checkAttribute true true (fun _ => false) DEFAULT_IGNORE_ATTRIBUTES 0 5
        { name := "class", value := AttrValue.str "Hello", i18n := none },
        d.messageId ≠ MessageId.i18nAttrib :=
  ⟨by decide,
   c1_exempt_attribute_never_reported true true (fun _ => false) DEFAULT_IGNORE_ATTRIBUTES
     (fun _ ha => ha) 0 5
     { name := "class", value := AttrValue.str "Hello", i18n := none }
     (Or.inl (by decide))⟩

/-- C2: the element inspector evaluates exactly one of its two branches on
marker presence; with a marker, `checkId` enabled and no custom identifier it
emits exactly one `i18nId` diagnostic with no fix (and never `i18nText`);
without a marker, `checkText` enabled and a direct Text, BoundText or Icu
child it emits exactly one `i18nText` diagnostic whose autofix inserts the
literal text ` i18n` at the insertion offset; it always emits at most one
diagnostic per node. -/
theorem c2_element_inspector
    (checkId checkText : Bool) (loc insertIndex : Nat) (node : TemplateNode) :
    (∀ marker, node.i18n = some marker → checkId = true → marker.customId = "" →
        checkElement checkId checkText loc insertIndex node =
          [{ messageId := MessageId.i18nId, loc := loc, attribName := none,
             fix := none, suggest := [] }])
    ∧ (node.i18n = none → checkText = true →
        node.children.any (fun child => TEXT_TYPE_NAMES.contains child.type) = true →
        checkElement checkId checkText loc insertIndex node =
          [{ messageId := MessageId.i18nText, loc := loc, attribName := none,
             fix := some { rangeStart := insertIndex, rangeEnd := insertIndex,
                           text := " i18n" },
             suggest := [] }])
    ∧ (checkElement checkId checkText loc insertIndex node).length ≤ 1 := by
  refine ⟨?_, ?_, ?_⟩
  · intro marker hm hci hcid
    simp [checkElement, hm, hci, hcid]
  · intro hm hct hchild
    simp only [checkElement, hm, hct, hchild, Bool.true_and, eq_self_iff_true, if_true]
    rfl
  · unfold checkElement
    split
    · split
      · split <;> simp
      · simp
    · split <;> simp

/-- C2 witness: a node whose marker has no custom identifier yields exactly
the fixless `i18nId` diagnostic. -/
theorem c2_witness :
    checkElement true true 0 4
      { name := "div", i18n := some { customId := "" }, attributes := [],
        children := [], startIndex := 0 } =
      [{ messageId := MessageId.i18nId, loc := 0, attribName := none,
         fix := none, suggest := [] }] :=
  (c2_element_inspector true true 0 4
    { name := "div", i18n := some { customId := "" }, attributes := [],
      children := [], startIndex := 0 }).1 { customId := "" } rfl rfl rfl

/-- C3: for every attribute without its own i18n marker, when
`checkAttributes` is enabled and the attribute's value is a non-exempt
string, the attribute inspector emits exactly one `i18nAttrib` diagnostic at
the node's location carrying the attribute's name as data, an autofix
inserting the literal text ` i18n-<name>` as a zero-width insertion at the
node's insertion offset, and a no-op suggestion proposing to add the name to
the ignore configuration; that diagnostic appears in the node's report
stream. -/
theorem c3_missing_attribute_diagnostic
    (checkId checkText : Bool) (numRT : String → Bool) (allIgnoredAttribs : List String)
    (node : TemplateNode) (name : String) (attrib : Attribute)
    (hmem : attrib ∈ node.attributes) (hmarker : attrib.i18n = none)
    (s : String) (hval : attrib.value = AttrValue.str s)
    (hne : s ≠ "") (htrue : s ≠ "true") (hfalse : s ≠ "false")
    (hnum : isSizeOrNumber numRT s = false)
    (hxml : jsStartsWith attrib.name ":xml" = false)
    (hign : attrib.name ∉ allIgnoredAttribs) :
    ∃ D : Diagnostic,
      D = { messageId := MessageId.i18nAttrib
            loc := node.startIndex
            attribName := some attrib.name
            fix := some { rangeStart := insertIndexFor node.startIndex name
                          rangeEnd := insertIndexFor node.startIndex name
                          text := " i18n-" ++ attrib.name }
            suggest := [{ messageId := MessageId.i18nSuggestIgnore
                          attribName := attrib.name
                          fix := none }] }
      ∧ checkAttribute checkId true numRT allIgnoredAttribs node.startIndex
          (insertIndexFor node.startIndex name) attrib = [D]
      ∧ D ∈ (checkNode checkId checkText true numRT allIgnoredAttribs node name).1 := by
  have hlen : 0 < s.length := by
    cases s with
    | mk data =>
      cases data with
      | nil => exact absurd rfl hne
      | cons c cs => simp [String.length]
  have h1 : (s == "") = false := by simp [hne]
  have h2 : decide (0 < s.length) = true := decide_eq_true hlen
  have h3 : (s == "true") = false := by simp [htrue]
  have h4 : (s == "false") = false := by simp [hfalse]
  have h6 : allIgnoredAttribs.contains attrib.name = false := by
    rw [Bool.eq_false_iff]
    intro hcon
    exact hign (List.elem_iff.mp hcon)
  have htext : " " ++ ATTRIB_I18N ++ "-" = " i18n-" := rfl
  have hattr : checkAttribute checkId true numRT allIgnoredAttribs node.startIndex
      (insertIndexFor node.startIndex name) attrib =
      [{ messageId := MessageId.i18nAttrib
         loc := node.startIndex
         attribName := some attrib.name
         fix := some { rangeStart := insertIndexFor node.startIndex name
                       rangeEnd := insertIndexFor node.startIndex name
                       text := " i18n-" ++ attrib.name }
         suggest := [{ messageId := MessageId.i18nSuggestIgnore
                       attribName := attrib.name
                       fix := none }] }] := by
    simp [checkAttribute, hmarker, hval, h1, h2, h3, h4, hnum, hxml, h6, htext, hign]
  refine ⟨_, rfl, hattr, ?_⟩
  simp only [checkNode]
  refine List.mem_append.mpr (Or.inl ?_)
  rw [List.mem_flatten]
  exact ⟨_, List.mem_map.mpr ⟨attrib, hmem, rfl⟩,
    by rw [hattr]; exact List.mem_singleton_self _⟩

/-- C3 witness: the attribute `title="Hello"` on a plain `div` produces the
`i18nAttrib` diagnostic with its autofix and no-op suggestion. -/
theorem c3_witness :
    ∃ D : Diagnostic,
      D = { messageId := MessageId.i18nAttrib, loc := 0, attribName := some "title",
            fix := some { rangeStart := 4, rangeEnd := 4, text := " i18n-title" },
            suggest := [{ messageId := MessageId.i18nSuggestIgnore, attribName := "title",
                          fix := none }] }
      ∧ checkAttribute true true (fun _ => false) DEFAULT_IGNORE_ATTRIBUTES 0 4
          { name := "title", value := AttrValue.str "Hello", i18n := none } = [D]
      ∧ D ∈ (checkNode true true true (fun _ => false) DEFAULT_IGNORE_ATTRIBUTES
          { name := "div", i18n := none,
            attributes := [{ name := "title", value := AttrValue.str "Hello", i18n := none }],
            children := [], startIndex := 0 } "div").1 :=
  c3_missing_attribute_diagnostic true true (fun _ => false) DEFAULT_IGNORE_ATTRIBUTES
    { name := "div", i18n := none,
      attributes := [{ name := "title", value := AttrValue.str "Hello", i18n := none }],
      children := [], startIndex := 0 } "div"
    { name := "title", value := AttrValue.str "Hello", i18n := none }
    (by decide) rfl "Hello" rfl (by decide) (by decide) (by decide) rfl (by decide)
    (by decide)

/-- C4: for every attribute that carries its own i18n marker, when `checkId`
is enabled and the marker's custom identifier is empty, the attribute
inspector emits exactly one fixless `i18nIdOnAttrib` diagnostic carrying the
attribute's name, for every value of `checkAttributes`; and an attribute
carrying a marker never yields an `i18nAttrib` diagnostic. -/
theorem c4_missing_id_on_attribute
    (checkId checkAttributes : Bool) (numRT : String → Bool)
    (allIgnoredAttribs : List String) (loc insertIndex : Nat)
    (attrib : Attribute) (marker : I18nMarker) (hmarker : attrib.i18n = some marker) :
    (checkId = true → marker.customId = "" →
      checkAttribute checkId checkAttributes numRT allIgnoredAttribs loc insertIndex attrib =
        [{ messageId := MessageId.i18nIdOnAttrib, loc := loc,
           attribName := some attrib.name, fix := none, suggest := [] }])
    ∧ ∀ d ∈ checkAttribute checkId checkAttributes numRT allIgnoredAttribs loc insertIndex attrib,
        d.messageId ≠ MessageId.i18nAttrib := by
  constructor
  · intro hci hcid
    simp [checkAttribute, hmarker, hci, hcid]
  · intro d hd
    simp only [checkAttribute, hmarker] at hd
    split at hd
    · simp only [List.mem_singleton] at hd
      subst hd
      simp
    · simp at hd

/-- C4 witness: a marked attribute with an empty custom identifier yields
exactly the fixless `i18nIdOnAttrib` diagnostic even with `checkAttributes`
disabled. -/
theorem c4_witness :
    checkAttribute true false (fun _ => false) [] 3 9
      { name := "title", value := AttrValue.str "Hello",
        i18n := some { customId := "" } } =
      [{ messageId := MessageId.i18nIdOnAttrib, loc := 3, attribName := some "title",
         fix := none, suggest := [] }] :=
  (c4_missing_id_on_attribute true false (fun _ => false) [] 3 9
    { name := "title", value := AttrValue.str "Hello", i18n := some { customId := "" } }
    { customId := "" } rfl).1 rfl rfl

/-- C5: the insertion offset is `startOffset + 1` for an empty name and
`startOffset + 1 + length(name)` otherwise, and for every node, named or
anonymous, the diagnostics of `checkNode` coincide with those of the
specified uniform pipeline `checkNodeSpec` that treats the name as the empty
string with no debug channel: processing is complete and never aborted. -/
theorem c5_node_locator_and_anonymous_nodes
    (checkId checkText checkAttributes : Bool) (numRT : String → Bool)
    (allIgnoredAttribs : List String) (node : TemplateNode) (name : String) :
    insertIndexFor node.startIndex "" = node.startIndex + 1
    ∧ (name ≠ "" → insertIndexFor node.startIndex name = node.startIndex + 1 + name.length)
    ∧ (checkNode checkId checkText checkAttributes numRT allIgnoredAttribs node name).1 =
        checkNodeSpec checkId checkText checkAttributes numRT allIgnoredAttribs node name := by
  refine ⟨rfl, ?_, ?_⟩
  · intro h
    simp [insertIndexFor, h]
  · simp only [checkNode, checkNodeSpec, insertIndexFor, beq_iff_eq]

/-- C5 witness: a named node gets offset `startOffset + 1 + length(name)`,
and an anonymous node with a text child is still fully processed (its
diagnostics are those of the uniform pipeline, which are non-empty). -/
theorem c5_witness :
    ("div" : String) ≠ ""
    ∧ insertIndexFor 7 "div" = 7 + 1 + ("div" : String).length :=
  ⟨by decide,
   (c5_node_locator_and_anonymous_nodes true true true (fun _ => false) []
      { name := "div", i18n := none, attributes := [], children := [], startIndex := 7 }
      "div").2.1 (by decide)⟩

/-- C6 (defect witness): `create` aliases and `push`-mutates the module-level
`DEFAULT_IGNORE_ATTRIBUTES` array, so after a first instantiation with
`ignoreAttributes = ["first"]` a second instantiation with
`ignoreAttributes = ["second"]` sees a lookup list that still contains
`"first"` and differs from built-in ++ `["second"]`; the built-in array
itself is changed by the first instantiation. -/
theorem c6_resolver_mutates_builtin_defaults :
    "first" ∈ (resolveIgnoreSet
        (resolveIgnoreSet DEFAULT_IGNORE_ATTRIBUTES (some ["first"])).1
        (some ["second"])).2
    ∧ (resolveIgnoreSet
        (resolveIgnoreSet DEFAULT_IGNORE_ATTRIBUTES (some ["first"])).1
        (some ["second"])).2 ≠ DEFAULT_IGNORE_ATTRIBUTES ++ ["second"]
    ∧ (resolveIgnoreSet DEFAULT_IGNORE_ATTRIBUTES (some ["first"])).1
        ≠ DEFAULT_IGNORE_ATTRIBUTES := by decide

/-- C7 counterexample: an attribute named `title` with a truthy value of a
non-string runtime type, no marker and `checkAttributes` enabled produces no
diagnostic at all, refuting the claim that unexpected value types fail open
toward reporting. -/
theorem c7_counterexample :
    checkAttribute true true (fun _ => false) DEFAULT_IGNORE_ATTRIBUTES 0 5
      { name := "title", value := AttrValue.nonString true, i18n := none } = [] := rfl

/-- C7 (amended): for every attribute without a marker whose value is not a
string, the value-type guard makes the inspector treat it as exempt: no
diagnostic is emitted, i.e. the code fails closed. -/
theorem c7_nonstring_value_exempt
    (checkId checkAttributes : Bool) (numRT : String → Bool)
    (allIgnoredAttribs : List String) (loc insertIndex : Nat)
    (attrib : Attribute) (hmarker : attrib.i18n = none)
    (hns : ∀ s, attrib.value ≠ AttrValue.str s) :
    checkAttribute checkId checkAttributes numRT allIgnoredAttribs loc insertIndex attrib
      = [] := by
  cases hv : attrib.value with
  | str s => exact absurd hv (hns s)
  | absent => simp [checkAttribute, hmarker, hv]
  | nonString t => simp [checkAttribute, hmarker, hv]

/-- C7 witness: a concrete truthy non-string value yields no diagnostic. -/
theorem c7_witness :
    checkAttribute true true (fun _ => false) [] 2 3
      { name := "alt", value := AttrValue.nonString true, i18n := none } = [] :=
  c7_nonstring_value_exempt true true (fun _ => false) [] 2 3
    { name := "alt", value := AttrValue.nonString true, i18n := none } rfl
    (fun _ h => AttrValue.noConfusion h)

/-- C8 counterexample: under the source's default options the resolved
ignore list contains the empty string, refuting the claim that the default
`ignoreAttributes` is empty and the resolved set is exactly the built-in
list. -/
theorem c8_counterexample :
    "" ∈ (resolveIgnoreSet DEFAULT_IGNORE_ATTRIBUTES defaultOptions.ignoreAttributes).2 := by
  decide

/-- C8 (amended): `ignoreAttributes` defaults to the one-element sequence
containing the empty string, so under default options the resolved ignore
list is exactly the built-in list followed by that one empty-string entry. -/
theorem c8_default_ignore_resolution :
    defaultOptions.ignoreAttributes = some [""]
    ∧ (resolveIgnoreSet DEFAULT_IGNORE_ATTRIBUTES defaultOptions.ignoreAttributes).2
        = DEFAULT_IGNORE_ATTRIBUTES ++ [""] := by decide

/-- C9: for every node for which an `i18nText` diagnostic was reported,
re-running the check on the node as it re-parses after the autofix (the
inserted ` i18n` attribute becomes an i18n marker with no custom identifier)
yields no further `i18nText` diagnostic for that node. -/
theorem c9_text_fix_idempotent
    (checkId checkText checkAttributes : Bool) (numRT : String → Bool)
    (allIgnoredAttribs : List String) (node : TemplateNode) (name : String)
    (hreported : ∃ d ∈ (checkNode checkId checkText checkAttributes numRT
        allIgnoredAttribs node name).1, d.messageId = MessageId.i18nText) :
    ∀ d ∈ (checkNode checkId checkText checkAttributes numRT allIgnoredAttribs
        (applyI18nTextFix node) name).1,
      d.messageId ≠ MessageId.i18nText := by
  intro d hd
  simp only [checkNode, List.mem_append] at hd
  rcases hd with hd | hd
  · rw [List.mem_flatten] at hd
    obtain ⟨l, hl, hdl⟩ := hd
    rw [List.mem_map] at hl
    obtain ⟨attrib, hamem, rfl⟩ := hl
    rcases checkAttribute_messageId_cases _ _ _ _ _ _ _ _ hdl with h | h <;> simp [h]
  · simp only [applyI18nTextFix, checkElement] at hd
    split at hd
    · split at hd
      · simp only [List.mem_singleton] at hd
        subst hd
        simp
      · simp at hd
    · simp at hd

/-- C9 witness: a `div` with a text child is reported, and after the fix it
is no longer reported. -/
theorem c9_witness :
    (∃ d ∈ (checkNode true true true (fun _ => false) []
        { name := "div", i18n := none, attributes := [],
          children := [{ type := "Text" }], startIndex := 0 } "div").1,
      d.messageId = MessageId.i18nText)
    ∧ ∀ d ∈ (checkNode true true true (fun _ => false) []
        (applyI18nTextFix
          { name := "div", i18n := none, attributes := [],
            children := [{ type := "Text" }], startIndex := 0 }) "div").1,
        d.messageId ≠ MessageId.i18nText :=
  ⟨by decide,
   c9_text_fix_idempotent true true true (fun _ => false) []
     { name := "div", i18n := none, attributes := [],
       children := [{ type := "Text" }], startIndex := 0 } "div" (by decide)⟩

/-- C10: for every attribute whose string value is `NaN`, `Infinity` or
`-Infinity`, optionally suffixed with `px`, the ECMAScript round-trip test
accepts the stripped value (these are hypotheses on the `numRT` oracle,
true in ECMAScript), so the `i18nAttrib` diagnostic is never reported. -/
theorem c10_special_numeric_strings_exempt
    (checkId checkAttributes : Bool) (numRT : String → Bool)
    (hNaN : numRT "NaN" = true) (hInf : numRT "Infinity" = true)
    (hNegInf : numRT "-Infinity" = true)
    (allIgnoredAttribs : List String) (loc insertIndex : Nat)
    (attrib : Attribute) (s : String) (hval : attrib.value = AttrValue.str s)
    (hs : s = "NaN" ∨ s = "NaNpx" ∨ s = "Infinity" ∨ s = "Infinitypx"
        ∨ s = "-Infinity" ∨ s = "-Infinitypx") :
    ∀ d ∈ checkAttribute checkId checkAttributes numRT allIgnoredAttribs loc insertIndex attrib,
      d.messageId ≠ MessageId.i18nAttrib := by
  intro d hd
  have hrt : isSizeOrNumber numRT s = true := by
    have e1 : stripPx "NaN" = "NaN" := by decide
    have e2 : stripPx "NaNpx" = "NaN" := by decide
    have e3 : stripPx "Infinity" = "Infinity" := by decide
    have e4 : stripPx "Infinitypx" = "Infinity" := by decide
    have e5 : stripPx "-Infinity" = "-Infinity" := by decide
    have e6 : stripPx "-Infinitypx" = "-Infinity" := by decide
    rcases hs with rfl | rfl | rfl | rfl | rfl | rfl <;>
      simp [isSizeOrNumber, e1, e2, e3, e4, e5, e6, hNaN, hInf, hNegInf]
  cases hmk : attrib.i18n with
  | some marker =>
    simp only [checkAttribute, hmk] at hd
    split at hd
    · simp only [List.mem_singleton] at hd
      subst hd
      simp
    · simp at hd
  | none =>
    simp only [checkAttribute, hmk, hval] at hd
    simp [hrt] at hd

/-- C10 witness: with an oracle accepting exactly the three special strings,
the value `NaNpx` is never reported. -/
theorem c10_witness :
    ((["NaN", "Infinity", "-Infinity"] : List String).contains "NaN" = true)
    ∧ ∀ d ∈ checkAttribute true true
        (fun t => (["NaN", "Infinity", "-Infinity"] : List String).contains t)
        DEFAULT_IGNORE_ATTRIBUTES 0 5
        { name := "alt", value := AttrValue.str "NaNpx", i18n := none },
        d.messageId ≠ MessageId.i18nAttrib :=
  ⟨by decide,
   c10_special_numeric_strings_exempt true true
     (fun t => (["NaN", "Infinity", "-Infinity"] : List String).contains t)
     (by decide) (by decide) (by decide)
     DEFAULT_IGNORE_ATTRIBUTES 0 5
     { name := "alt", value := AttrValue.str "NaNpx", i18n := none }
     "NaNpx" rfl (Or.inr (Or.inl rfl))⟩

end I18nRule
